import Mathlib

/-!
Verification model of the LearnUs downloader web service.

The definitions below are a shallow embedding of `learnus_core.py`,
`app/tasks.py` and `app/routes.py`:

* HTML documents are modelled by the parts that BeautifulSoup extracts
  from them: the `input` name/value pairs in document order, the `src`
  attribute of the HLS `source` element, and the `div#vod_header` /
  `h1` title structure (a list of inline nodes, some of which are
  `span` badges).
* The mocked HTTP exchange of `extract_from_login` is a record of the
  four parsed step responses plus the final video page; the function
  additionally returns the trace of HTTP requests it issued.
* Python exceptions are modelled with `Except String`; the sentinel
  failure `(None, None)` of the extraction helpers is `.ok (none, none)`.
* Worker threads mutate a `DownloadTask` through an explicit event
  alphabet; concurrent sub-job execution is an arbitrary interleaving
  of the two sub-jobs' event lists.
-/

set_option maxRecDepth 8000

namespace LearnUs

/-- Python truthiness of an optional string: `None` and the empty string
are falsy, every other string is truthy. -/
def pyTruthy : Option String → Bool
  | none => false
  | some s => !s.data.isEmpty

/-- Unicode whitespace test used to model Python `str.strip()`. -/
def isSpaceChar (c : Char) : Bool :=
  c == ' ' || c == '\t' || c == '\n' || c == '\r'

/-- Model of Python `str.strip()`: drop whitespace from both ends. -/
def pyStrip (s : String) : String :=
  String.mk ((((s.data.dropWhile isSpaceChar).reverse).dropWhile isSpaceChar).reverse)

/-- One inline node inside the `h1` title heading: plain text or a `span` badge. -/
inductive TitleNode
  | textNode (s : String)
  | spanNode (s : String)
  deriving DecidableEq

/-- Text carried by a title node. -/
def nodeText : TitleNode → String
  | .textNode s => s
  | .spanNode s => s

/-- Whether a node is a `span` element (`title_node.find_all('span')`). -/
def isSpan : TitleNode → Bool
  | .spanNode _ => true
  | .textNode _ => false

/-- Model of `span.decompose()` applied to every span found inside the
heading: the span nodes are removed from the node list. -/
def decompose_spans (ns : List TitleNode) : List TitleNode :=
  ns.filter (fun n => !isSpan n)

/-- Model of BeautifulSoup `get_text(strip=True)` on the heading: the
text of every remaining node, stripped, concatenated in order. -/
def get_text_strip (ns : List TitleNode) : String :=
  String.join (ns.map (fun n => pyStrip (nodeText n)))

/-- The `div` with id `vod_header`, as far as the source inspects it:
it may or may not contain an `h1` heading. -/
structure VodHeaderDiv where
  h1 : Option (List TitleNode)
  deriving DecidableEq

/-- A parsed HTML document, restricted to the features the source reads:
`input` tags (name/value, in document order), the `src` attribute of a
`source` tag with type `application/x-mpegURL`, and the title container. -/
structure Html where
  inputs : List (String × String)
  sourceSrc : Option String
  vodHeader : Option VodHeaderDiv
  deriving DecidableEq

/-- Model of `get_value_from_input` (learnus_core.py lines 25-28): value
of the first `input` tag with the given name, `None` when absent. -/
def get_value_from_input (doc : Html) (inputName : String) : Option String :=
  (doc.inputs.find? (fun p => p.1 == inputName)).map (fun p => p.2)

/-- Model of `get_multiple_values` (learnus_core.py lines 30-38): the
values of all named `input` tags in order, `None` if any is absent. -/
def get_multiple_values (doc : Html) (names : List String) : Option (List String) :=
  names.mapM (fun n => get_value_from_input doc n)

/-! ## Title sanitization (learnus_core.py lines 131-133 and 148-149) -/

/-- The nine filesystem-invalid characters of `invalid_chars`. -/
def invalid_chars : List Char := ['\\', '/', ':', '*', '?', '\"', '<', '>', '|']

/-- The full-width replacement characters, in the same order. -/
def fullwidth_chars : List Char := ['＼', '／', '：', '＊', '？', '＂', '＜', '＞', '｜']

/-- Model of `str.maketrans(invalid_chars, '＼／：＊？＂＜＞｜')`. -/
def translation_table : List (Char × Char) := invalid_chars.zip fullwidth_chars

/-- Character translation performed by `str.translate`: characters in
the table are replaced, all others are left unchanged. -/
def translateChar (c : Char) : Char :=
  match translation_table.find? (fun p => p.1 == c) with
  | some p => p.2
  | none => c

/-- Model of `video_title.translate(translation_table)`. -/
def sanitize_title (s : String) : String :=
  String.mk (s.data.map translateChar)

/-! ## Credential cipher (learnus_core.py lines 74-77)

`RSA.construct((int(km, 16), 0x10001))` followed by
`PKCS1_v1_5.new(keyPair).encrypt(json_str.encode()).hex()`. -/

/-- Value of a hexadecimal digit, or `none` for any other character. -/
def hexDigitVal (c : Char) : Option Nat :=
  if '0' ≤ c ∧ c ≤ '9' then some (c.toNat - '0'.toNat)
  else if 'a' ≤ c ∧ c ≤ 'f' then some (c.toNat - 'a'.toNat + 10)
  else if 'A' ≤ c ∧ c ≤ 'F' then some (c.toNat - 'A'.toNat + 10)
  else none

/-- Model of Python `int(s, 16)` on a plain hex string: its value, or
`none` for the `ValueError` raised on a malformed string. -/
def hexToNat (s : String) : Option Nat :=
  if s.data.isEmpty then none
  else
    s.data.foldl
      (fun acc c =>
        match acc, hexDigitVal c with
        | some a, some v => some (a * 16 + v)
        | _, _ => none)
      (some 0)

/-- UTF-8 encoding of one character as a list of byte values. -/
def utf8Char (c : Char) : List Nat :=
  let n := c.toNat
  if n < 0x80 then [n]
  else if n < 0x800 then [0xC0 + n / 64, 0x80 + n % 64]
  else if n < 0x10000 then [0xE0 + n / 4096, 0x80 + n / 64 % 64, 0x80 + n % 64]
  else [0xF0 + n / 262144, 0x80 + n / 4096 % 64, 0x80 + n / 64 % 64, 0x80 + n % 64]

/-- Model of Python `str.encode()`: the UTF-8 bytes of a string. -/
def strBytes (s : String) : List Nat :=
  s.data.flatMap utf8Char

/-- Big-endian byte interpretation (PKCS#1 OS2IP). -/
def os2ip (bs : List Nat) : Nat :=
  bs.foldl (fun acc b => acc * 256 + b) 0

/-- Big-endian encoding of a number into exactly `k` bytes (PKCS#1 I2OSP). -/
def i2osp (k : Nat) (n : Nat) : List Nat :=
  match k with
  | 0 => []
  | k' + 1 => i2osp k' (n / 256) ++ [n % 256]

/-- Lowercase hexadecimal digit for a value below 16. -/
def hexChar (n : Nat) : Char :=
  if n < 10 then Char.ofNat ('0'.toNat + n) else Char.ofNat ('a'.toNat + n - 10)

/-- Model of Python `bytes.hex()`: two lowercase hex digits per byte. -/
def bytesToHex (bs : List Nat) : String :=
  String.mk (bs.flatMap (fun b => [hexChar (b / 16 % 16), hexChar (b % 16)]))

/-- Bit length of a natural number, computed with structural fuel so the
kernel can evaluate it. -/
def bitLenAux : Nat → Nat → Nat
  | 0, _ => 0
  | fuel + 1, n => if n = 0 then 0 else bitLenAux fuel (n / 2) + 1

/-- Number of bits of `n` (`Crypto.Util.number.size`). -/
def bitLen (n : Nat) : Nat := bitLenAux n n

/-- Number of bytes of the RSA modulus, as used by PyCryptodome's
PKCS#1 v1.5 cipher (`ceil(bits / 8)`). -/
def byteLength (n : Nat) : Nat := (bitLen n + 7) / 8

/-- Modular exponentiation by repeated squaring, with structural fuel so
that concrete instances evaluate inside the kernel. -/
def powModAux (n : Nat) : Nat → Nat → Nat → Nat
  | 0, _, _ => 1 % n
  | fuel + 1, b, e =>
    if e = 0 then 1 % n
    else if e % 2 = 1 then powModAux n fuel (b * b % n) (e / 2) * (b % n) % n
    else powModAux n fuel (b * b % n) (e / 2)

/-- Modular exponentiation `b ^ e % n`. -/
def powMod (n b e : Nat) : Nat := powModAux n e b e

/-- The PKCS#1 v1.5 encryption block `00 02 PS 00 M` for a modulus of
`k` bytes, with the (random, in the source) nonzero padding bytes drawn
from the stream `ps`. -/
def pkcs1_v15_pad (k : Nat) (ps : Nat → Nat) (msg : List Nat) : List Nat :=
  0 :: 2 :: ((List.range (k - msg.length - 3)).map ps ++ (0 :: msg))

/-- Model of `PKCS1_v1_5.new(keyPair).encrypt(msg).hex()` for the public
key `(n, 0x10001)`: `.error` models the `ValueError` raised when the
message does not fit the modulus. -/
def rsa_encrypt_hex (ps : Nat → Nat) (n : Nat) (msg : List Nat) : Except String String :=
  if msg.length > byteLength n - 11 then .error "ValueError: Plaintext is too long."
  else
    .ok (bytesToHex (i2osp (byteLength n)
      (powMod n (os2ip (pkcs1_v15_pad (byteLength n) ps msg)) 65537)))

/-- The payload f-string of learnus_core.py line 76, built by naive
interpolation of the three values (no JSON escaping). -/
def json_str (username password sc : String) : String :=
  "\x7b\"userid\":\"" ++ username ++ "\",\"userpw\":\"" ++ password ++
    "\",\"ssoChallenge\":\"" ++ sc ++ "\"\x7d"

/-- Model of learnus_core.py lines 74-77: build the RSA key from the hex
modulus and exponent `0x10001`, PKCS#1-v1.5-encrypt the payload string,
and hex-encode the ciphertext. `.error` models a raised exception. -/
def credential_cipher (ps : Nat → Nat) (username password sc km : String) :
    Except String String :=
  match hexToNat km with
  | none => .error "ValueError: invalid literal for int() with base 16"
  | some n => rsa_encrypt_hex ps n (strBytes (json_str username password sc))

/-! ## The five-step handshake and stream locator (learnus_core.py lines 14-160) -/

/-- The HTTP requests `extract_from_login` can issue, in program order. -/
inductive Req
  | coursemosLogin1
  | pmSSOService
  | coursemosLogin2
  | pmSSOAuthService
  | spLoginData
  | spLoginProcess
  | videoPage
  deriving DecidableEq

/-- A mocked HTTP exchange: the parsed responses of the four handshake
steps whose bodies are inspected, the final video page, and the
random-padding stream used by the credential cipher.  (The responses of
the `spLoginData` post and the `spLoginProcess` get are never parsed by
the source, so they are not part of the record.) -/
structure HttpEnv where
  resp1 : Html
  resp2 : Html
  resp3 : Html
  resp4 : Html
  page : Html
  ps : Nat → Nat

/-- Model of `extract_from_login` (learnus_core.py lines 14-135).  The
first component is the returned pair — `.ok (none, none)` is the sentinel
failure, `.error` a raised Python exception — and the second component is
the trace of HTTP requests issued. -/
def extract_from_login (username password : String) (env : HttpEnv) :
    Except String (Option String × Option String) × List Req :=
  let reqs1 : List Req := [.coursemosLogin1]
  let s1 := get_value_from_input env.resp1 "S1"
  if !pyTruthy s1 then (.ok (none, none), reqs1)
  else
    let reqs2 := reqs1 ++ [.pmSSOService]
    match get_multiple_values env.resp2 ["ssoChallenge", "keyModulus"] with
    | some [sc, km] =>
      match credential_cipher env.ps username password sc km with
      | .error e => (.error e, reqs2)
      | .ok _e2 =>
        let reqs3 := reqs2 ++ [.coursemosLogin2]
        let s1b := get_value_from_input env.resp3 "S1"
        if !pyTruthy s1b then (.ok (none, none), reqs3)
        else
          let reqs4 := reqs3 ++ [.pmSSOAuthService]
          match get_multiple_values env.resp4 ["E3", "E4", "S2", "CLTID"] with
          | some [_e3, _e4, _s2, _cltid] =>
            let reqs7 := reqs4 ++ [.spLoginData, .spLoginProcess, .videoPage]
            match env.page.sourceSrc with
            | none => (.ok (none, none), reqs7)
            | some src =>
              match env.page.vodHeader with
              | none => (.error "AttributeError: NoneType object has no attribute find", reqs7)
              | some hdr =>
                match hdr.h1 with
                | none =>
                  (.error "AttributeError: NoneType object has no attribute find_all", reqs7)
                | some ns =>
                  let title := sanitize_title (get_text_strip (decompose_spans ns))
                  (.ok (some title, some src), reqs7)
          | _ => (.ok (none, none), reqs4)
    | _ => (.ok (none, none), reqs2)

/-- Model of `extract_from_html` (learnus_core.py lines 138-160): returns
`(m3u8_url, video_title)` — note the order, opposite to
`extract_from_login` — with the fixed fallback title `LearnUs_Video`
when the title container or its heading is absent. -/
def extract_from_html (doc : Html) : Option String × Option String :=
  let video_title :=
    match doc.vodHeader with
    | some hdr =>
      match hdr.h1 with
      | some ns => sanitize_title (get_text_strip (decompose_spans ns))
      | none => "LearnUs_Video"
    | none => "LearnUs_Video"
  match doc.sourceSrc with
  | none => (none, none)
  | some src => (some src, some video_title)

/-! ## Task records, registry and workers (app/tasks.py) -/

/-- Model of `DownloadTask` (app/tasks.py lines 15-21).  `status` is the
literal status string of the source; `progress` is the
artifact-name-to-percent mapping as an association list in insertion
order. -/
structure DownloadTask where
  id : String
  status : String
  progress : List (String × Nat)
  files : List String
  error : Option String
  deriving DecidableEq

/-- Model of `DownloadTask.__init__`: a fresh pending record. -/
def initTask (id : String) : DownloadTask :=
  { id := id, status := "pending", progress := [], files := [], error := none }

/-- Mutation events a sub-job worker performs on the shared task record:
a progress write (`_progress_callback`), an output-path append or an
error write (both in `_dl_wrapper`). -/
inductive Ev
  | progressEv (file : String) (pct : Nat)
  | appendFileEv (path : String)
  | setErrorEv (msg : String)
  deriving DecidableEq

/-- Python dict assignment `task.progress[file_name] = progress`:
overwrite an existing key in place, else append the new key. -/
def setProg (m : List (String × Nat)) (k : String) (v : Nat) : List (String × Nat) :=
  if m.any (fun p => p.1 == k) then m.map (fun p => if p.1 == k then (k, v) else p)
  else m ++ [(k, v)]

/-- Effect of one sub-job event on the task record (app/tasks.py lines
81-82 and 122-128).  No event touches the `status` field. -/
def applyEv (t : DownloadTask) : Ev → DownloadTask
  | .progressEv f p => { t with progress := setProg t.progress f p }
  | .appendFileEv p => { t with files := t.files ++ [p] }
  | .setErrorEv m => { t with error := some m }

/-- Sequential application of an (interleaved) event list. -/
def applyEvs (t : DownloadTask) (evs : List Ev) : DownloadTask :=
  evs.foldl applyEv t

instance {ε α : Type} [DecidableEq ε] [DecidableEq α] : DecidableEq (Except ε α)
  | .error a, .error b =>
    if h : a = b then isTrue (congrArg Except.error h)
    else isFalse (fun hh => h (Except.error.inj hh))
  | .error _, .ok _ => isFalse (fun hh => Except.noConfusion hh)
  | .ok _, .error _ => isFalse (fun hh => Except.noConfusion hh)
  | .ok a, .ok b =>
    if h : a = b then isTrue (congrArg Except.ok h)
    else isFalse (fun hh => h (Except.ok.inj hh))

/-- One conversion sub-job, abstracted at the Transcode Executor
boundary: the progress callbacks it fires in order, then its outcome
(`.ok` output path or `.error` exception message). -/
structure SubJob where
  progressTrace : List (String × Nat)
  outcome : Except String String
  deriving DecidableEq

/-- The events one `_dl_wrapper` thread performs on the task record: its
progress callbacks, then either `task.files.append(path)` on success or
`task.error = str(e)` on failure. -/
def subJobEvents (j : SubJob) : List Ev :=
  j.progressTrace.map (fun q => .progressEv q.1 q.2) ++
    [match j.outcome with
     | .ok path => .appendFileEv path
     | .error e => .setErrorEv e]

/-- Interleaving of two event sequences: `Interleaving xs ys zs` holds
when `zs` merges `xs` and `ys` preserving the order within each.  The
two `_spawn_downloads` threads run concurrently, so the shared record
sees an arbitrary interleaving of their event lists; the `join` loop
guarantees the whole of both lists is applied before the final status
is computed. -/
inductive Interleaving {α : Type} : List α → List α → List α → Prop
  | nil : Interleaving [] [] []
  | left {x : α} {xs ys zs : List α} :
      Interleaving xs ys zs → Interleaving (x :: xs) ys (x :: zs)
  | right {y : α} {xs ys zs : List α} :
      Interleaving xs ys zs → Interleaving xs (y :: ys) (y :: zs)

/-- Model of `_run_login_download` (app/tasks.py lines 85-98).

`extraction` is the result of `extract_from_login`: `.error e` models an
exception raised during resolution (caught by the worker's
`try/except`), `.ok (vt, mu)` the returned pair.  `spawnExc` models an
exception raised during spawning or joining of the sub-jobs, after the
sub-job events `zs` have been applied.  The result is the final record
together with the trace of values written to `task.status`, in order
(the initial `task.status = 'running'` write first). -/
def _run_login_download (t : DownloadTask)
    (extraction : Except String (Option String × Option String))
    (spawnExc : Option String) (zs : List Ev) : DownloadTask × List String :=
  let t1 := { t with status := "running" }
  match extraction with
  | .error e => ({ t1 with status := "failed", error := some e }, ["running", "failed"])
  | .ok (vt, mu) =>
    if !pyTruthy vt || !pyTruthy mu then
      ({ t1 with status := "failed",
                 error := some "Failed to obtain video information. Check credentials or URL." },
        ["running", "failed"])
    else
      let t2 := applyEvs t1 zs
      match spawnExc with
      | some e => ({ t2 with status := "failed", error := some e }, ["running", "failed"])
      | none =>
        let fin := if pyTruthy t2.error then "failed" else "finished"
        ({ t2 with status := fin }, ["running", fin])

/-- Model of `_run_html_download` (app/tasks.py lines 101-113), analogous
to `_run_login_download`; only the m3u8 URL is tested for truthiness. -/
def _run_html_download (t : DownloadTask) (extraction : Option String × Option String)
    (spawnExc : Option String) (zs : List Ev) : DownloadTask × List String :=
  let t1 := { t with status := "running" }
  let (mu, _vt) := extraction
  if !pyTruthy mu then
    ({ t1 with status := "failed", error := some "Unable to find m3u8 URL in HTML." },
      ["running", "failed"])
  else
    let t2 := applyEvs t1 zs
    match spawnExc with
    | some e => ({ t2 with status := "failed", error := some e }, ["running", "failed"])
    | none =>
      let fin := if pyTruthy t2.error then "failed" else "finished"
      ({ t2 with status := fin }, ["running", fin])

/-- The shared task registry (`tasks` dict in app/tasks.py line 33),
newest binding first so that lookup sees dict-overwrite semantics. -/
structure Registry where
  tasks : List (String × DownloadTask)
  deriving DecidableEq

/-- Model of `_register_task` (app/tasks.py lines 37-39). -/
def _register_task (r : Registry) (t : DownloadTask) : Registry :=
  ⟨(t.id, t) :: r.tasks⟩

/-- Model of `get_task` (app/tasks.py lines 42-44). -/
def get_task (r : Registry) (taskId : String) : Option DownloadTask :=
  (r.tasks.find? (fun p => p.1 == taskId)).map (fun p => p.2)

/-- Model of `start_login_download` / `start_html_download` up to the
point where they return (app/tasks.py lines 51-74): create a fresh
pending record, register it, return its id; the worker thread runs
asynchronously afterwards. -/
def start_download_task (r : Registry) (newId : String) : String × Registry :=
  let t := initTask newId
  (t.id, _register_task r t)

/-! ## Routes (app/routes.py) -/

/-- Response of a route handler: a task id, or a JSON error with an
HTTP status code. -/
inductive ApiResponse
  | okTask (taskId : String)
  | clientError (msg : String) (code : Nat)
  deriving DecidableEq

/-- Model of the `/api/login-download` handler (app/routes.py lines
15-28).  `newId` stands for the uuid the task would receive.  The
registry is returned unchanged when validation fails. -/
def login_download_route (username password url : Option String) (mp4 mp3 : Bool)
    (newId : String) (r : Registry) : ApiResponse × Registry :=
  if !(pyTruthy username && pyTruthy password && pyTruthy url) || !(mp4 || mp3) then
    (.clientError "Missing parameters" 400, r)
  else
    let (tid, r2) := start_download_task r newId
    (.okTask tid, r2)

/-- Model of the `/api/html-download` handler (app/routes.py lines
31-41); `file` is the uploaded HTML file, `none` when absent. -/
def html_download_route (file : Option String) (mp4 mp3 : Bool)
    (newId : String) (r : Registry) : ApiResponse × Registry :=
  if file.isNone || !(mp4 || mp3) then
    (.clientError "Missing parameters" 400, r)
  else
    let (tid, r2) := start_download_task r newId
    (.okTask tid, r2)

/-- Model of Python `os.path.basename` on POSIX paths. -/
def basename (p : String) : String :=
  String.mk (((p.data.reverse).takeWhile (fun c => !(c == '/'))).reverse)

/-- The JSON object produced by `DownloadTask.to_dict` (app/tasks.py
lines 23-30). -/
structure TaskDict where
  id : String
  status : String
  progress : List (String × Nat)
  files : List String
  error : Option String
  deriving DecidableEq

/-- Model of `DownloadTask.to_dict`. -/
def to_dict (t : DownloadTask) : TaskDict :=
  { id := t.id, status := t.status, progress := t.progress,
    files := t.files.map basename, error := t.error }

/-- Response of the `/api/progress/<task_id>` poller route. -/
inductive ProgressResponse
  | okDict (d : TaskDict)
  | notFound (msg : String)
  deriving DecidableEq

/-- Model of the `progress` handler (app/routes.py lines 44-49). -/
def progress_route (r : Registry) (taskId : String) : ProgressResponse :=
  match get_task r taskId with
  | none => .notFound "Invalid task id"
  | some t => .okDict (to_dict t)

/-! ## Lock discipline (app/tasks.py lines 33-44, 81-82, 85-144)

Which operations on the shared state execute inside
`with _tasks_lock:` is a static property of the source text; it is
recorded here operation by operation. -/

/-- The operations the core performs on the shared registry / task
records. -/
inductive CoreOp
  | registerTaskOp
  | getTaskOp
  | progressUpdateOp
  | appendFileOp
  | setErrorOp
  | setStatusOp
  deriving DecidableEq

/-- Whether the source statement performing the operation runs inside
`with _tasks_lock:`.  Only `_register_task` (lines 38-39) and `get_task`
(lines 43-44) do; `_progress_callback` (line 82), the `files.append` and
`error` writes of `_dl_wrapper` (lines 125, 128) and every `status`
write in the workers (lines 87-113) execute without the lock. -/
def holds_tasks_lock : CoreOp → Bool
  | .registerTaskOp => true
  | .getTaskOp => true
  | .progressUpdateOp => false
  | .appendFileOp => false
  | .setErrorOp => false
  | .setStatusOp => false

/-- Whether the operation mutates shared state (everything except the
read-only lookup). -/
def mutatesSharedState : CoreOp → Bool
  | .getTaskOp => false
  | _ => true

/-- The operation class of a sub-job event. -/
def evOp : Ev → CoreOp
  | .progressEv _ _ => .progressUpdateOp
  | .appendFileEv _ => .appendFileOp
  | .setErrorEv _ => .setErrorOp

/-! ## Derived notions used for stating the claims -/

/-- Output path written by a sub-job event, if any. -/
def evPath : Ev → Option String
  | .appendFileEv p => some p
  | _ => none

/-- Error message written by a sub-job event, if any. -/
def evErr : Ev → Option String
  | .setErrorEv m => some m
  | _ => none

/-- Value of an overwrite-only optional cell after a sequence of writes:
the last write wins, the initial value survives when there is none. -/
def lastOption (i : Option String) (l : List String) : Option String :=
  l.foldl (fun _ m => some m) i

/-- The status transitions the specification allows:
`pending → running → finished | failed`. -/
def allowed_transition (a b : String) : Prop :=
  (a = "pending" ∧ b = "running") ∨ (a = "running" ∧ (b = "finished" ∨ b = "failed"))

/-! ## Spec-side definitions for the refinement claims

These definitions follow the specification's words, not the source; the
claims compare the source-derived definitions against them. -/

/-- Four hexadecimal digits of a code point below `0x10000`, used for
JSON `\uXXXX` escapes. -/
def uHexDigits (n : Nat) : List Char :=
  [hexChar (n / 4096 % 16), hexChar (n / 256 % 16), hexChar (n / 16 % 16), hexChar (n % 16)]

/-- Escape of one character inside a JSON string literal (minimal JSON
escaping: quote, backslash and control characters). -/
def json_escape_char (c : Char) : List Char :=
  if c = '\"' then ['\\', '\"']
  else if c = '\\' then ['\\', '\\']
  else if c.toNat < 32 then '\\' :: 'u' :: uHexDigits c.toNat
  else [c]

/-- JSON string literal for a Lean string. -/
def json_quote (s : String) : String :=
  "\"" ++ String.mk (s.data.flatMap json_escape_char) ++ "\""

/-- Canonical JSON serialization of the object
`{"userid": username, "userpw": password, "ssoChallenge": sc}`,
following the specification's words (section 4.1): a well-formed JSON
serialization of the three fields. -/
def spec_canonical_json (username password sc : String) : String :=
  "\x7b\"userid\":" ++ json_quote username ++ ",\"userpw\":" ++ json_quote password ++
    ",\"ssoChallenge\":" ++ json_quote sc ++ "\x7d"

/-- Whether every character of the string survives JSON serialization
unescaped. -/
def jsonSafe (s : String) : Bool :=
  s.data.all (fun c => !(c == '\"') && !(c == '\\') && decide (32 ≤ c.toNat))

/-! ## Concrete fixtures shared by witnesses and counterexamples -/

/-- A 128-digit hex modulus string (the letter `f` repeated), large
enough for the PKCS#1 v1.5 block of the credential payload. -/
def kmBig : String := String.mk (List.replicate 128 'f')

/-- A response document carrying only `input` tags. -/
def inputDoc (l : List (String × String)) : Html :=
  { inputs := l, sourceSrc := none, vodHeader := none }

/-- A mocked exchange in which every handshake step response carries its
required hidden fields, parameterised by the final video page. -/
def goodStepsEnv (page : Html) : HttpEnv :=
  { resp1 := inputDoc [("S1", "tok1")]
    resp2 := inputDoc [("ssoChallenge", "ch"), ("keyModulus", kmBig)]
    resp3 := inputDoc [("S1", "tok2")]
    resp4 := inputDoc [("E3", "a"), ("E4", "b"), ("S2", "c"), ("CLTID", "d")]
    page := page
    ps := fun _ => 1 }

/-- A video page with an HLS source element and a badge-polluted title. -/
def pageWithTitle : Html :=
  { inputs := []
    sourceSrc := some "https://cdn/x.m3u8"
    vodHeader := some { h1 := some [.spanNode "[VOD]", .textNode " A/B: C "] } }

/-- The complete request trace of a full `extract_from_login` run. -/
def allReqs : List Req :=
  [.coursemosLogin1, .pmSSOService, .coursemosLogin2, .pmSSOAuthService,
   .spLoginData, .spLoginProcess, .videoPage]

/-- A mocked exchange whose handshake responses all carry their required
fields but whose video page has no HLS source element. -/
def c1CexEnv : HttpEnv :=
  goodStepsEnv { inputs := [], sourceSrc := none, vodHeader := none }

/-- A video page with an HLS source element but no title container. -/
def c8Page : Html := { inputs := [], sourceSrc := some "https://cdn/y.m3u8", vodHeader := none }

/-! # Helper lemmas -/

theorem string_ext {s t : String} (h : s.data = t.data) : s = t := by
  cases s; cases t; exact congrArg String.mk h

theorem applyEv_status (t : DownloadTask) (ev : Ev) : (applyEv t ev).status = t.status := by
  cases ev <;> rfl

theorem applyEvs_status (zs : List Ev) : ∀ t : DownloadTask,
    (applyEvs t zs).status = t.status := by
  induction zs with
  | nil => intro t; rfl
  | cons z zs ih =>
    intro t
    show (applyEvs (applyEv t z) zs).status = t.status
    rw [ih (applyEv t z), applyEv_status]

theorem applyEvs_files (zs : List Ev) : ∀ t : DownloadTask,
    (applyEvs t zs).files = t.files ++ zs.filterMap evPath := by
  induction zs with
  | nil => intro t; simp [applyEvs]
  | cons z zs ih =>
    intro t
    show (applyEvs (applyEv t z) zs).files = _
    rw [ih (applyEv t z)]
    cases z with
    | progressEv f p => simp [applyEv, evPath, List.filterMap_cons]
    | appendFileEv p => simp [applyEv, evPath, List.filterMap_cons]
    | setErrorEv m => simp [applyEv, evPath, List.filterMap_cons]

theorem applyEvs_error (zs : List Ev) : ∀ t : DownloadTask,
    (applyEvs t zs).error = lastOption t.error (zs.filterMap evErr) := by
  induction zs with
  | nil => intro t; rfl
  | cons z zs ih =>
    intro t
    show (applyEvs (applyEv t z) zs).error = _
    rw [ih (applyEv t z)]
    cases z with
    | progressEv f p => simp [applyEv, evErr, List.filterMap_cons]
    | appendFileEv p => simp [applyEv, evErr, List.filterMap_cons]
    | setErrorEv m =>
      simp [applyEv, evErr, List.filterMap_cons, lastOption, List.foldl_cons]

theorem lastOption_isSome (l : List String) : ∀ i : Option String,
    (lastOption i l).isSome = (i.isSome || !l.isEmpty) := by
  induction l with
  | nil => intro i; simp [lastOption]
  | cons m l ih =>
    intro i
    show (lastOption (some m) l).isSome = _
    rw [ih (some m)]
    simp

theorem interleaving_nil_left {α : Type} {xs ys zs : List α} (h : Interleaving xs ys zs) :
    xs = [] → zs = ys := by
  induction h with
  | nil => intro; rfl
  | left h ih => intro hx; exact absurd hx (by simp)
  | right h ih => intro hx; rw [ih hx]

theorem interleaving_nil_right {α : Type} {xs ys zs : List α} (h : Interleaving xs ys zs) :
    ys = [] → zs = xs := by
  induction h with
  | nil => intro; rfl
  | left h ih => intro hy; rw [ih hy]
  | right h ih => intro hy; exact absurd hy (by simp)

theorem interleaving_filterMap {α β : Type} (f : α → Option β) {xs ys zs : List α}
    (h : Interleaving xs ys zs) :
    Interleaving (xs.filterMap f) (ys.filterMap f) (zs.filterMap f) := by
  induction h with
  | nil => exact Interleaving.nil
  | @left x xs ys zs h ih =>
    simp only [List.filterMap_cons]
    cases hfx : f x with
    | none => exact ih
    | some b => exact Interleaving.left ih
  | @right y xs ys zs h ih =>
    simp only [List.filterMap_cons]
    cases hfy : f y with
    | none => exact ih
    | some b => exact Interleaving.right ih

theorem interleaving_nil_iff {α : Type} {xs ys zs : List α} (h : Interleaving xs ys zs) :
    zs = [] ↔ xs = [] ∧ ys = [] := by
  cases h with
  | nil => simp
  | left h => simp
  | right h => simp

theorem interleaving_mem {α : Type} {xs ys zs : List α} (h : Interleaving xs ys zs) :
    ∀ a ∈ zs, a ∈ xs ∨ a ∈ ys := by
  induction h with
  | nil => intro a ha; simp at ha
  | @left x xs ys zs h ih =>
    intro a ha
    rcases List.mem_cons.mp ha with rfl | ha2
    · exact Or.inl (by simp)
    · rcases ih a ha2 with hx | hy
      · exact Or.inl (by simp [hx])
      · exact Or.inr hy
  | @right y xs ys zs h ih =>
    intro a ha
    rcases List.mem_cons.mp ha with rfl | ha2
    · exact Or.inr (by simp)
    · rcases ih a ha2 with hx | hy
      · exact Or.inl hx
      · exact Or.inr (by simp [hy])

theorem lastOption_cons_spec (ms : List String) : ∀ (m : String) (i : Option String),
    ∃ x, lastOption i (m :: ms) = some x ∧ x ∈ m :: ms := by
  induction ms with
  | nil => intro m i; exact ⟨m, rfl, by simp⟩
  | cons m2 ms ih =>
    intro m i
    obtain ⟨x, hx, hmem⟩ := ih m2 (some m)
    exact ⟨x, hx, by simp [List.mem_cons.mp hmem]⟩

theorem subJobEvents_path (j : SubJob) :
    (subJobEvents j).filterMap evPath =
      (match j.outcome with | .ok p => [p] | .error _ => []) := by
  unfold subJobEvents
  rw [List.filterMap_append]
  have h1 : (j.progressTrace.map (fun q => Ev.progressEv q.1 q.2)).filterMap evPath = [] := by
    induction j.progressTrace with
    | nil => rfl
    | cons q l ih => simp only [List.map_cons, List.filterMap_cons]; simp [evPath, ih]
  rw [h1]
  cases j.outcome with
  | ok p => simp [evPath, List.filterMap_cons]
  | error e => simp [evPath, List.filterMap_cons]

theorem powModAux_correct (n : Nat) : ∀ fuel e b : Nat, e ≤ fuel →
    powModAux n fuel b e = b ^ e % n := by
  intro fuel
  induction fuel with
  | zero =>
    intro e b he
    have he0 : e = 0 := Nat.le_zero.mp he
    subst he0
    simp [powModAux]
  | succ fuel ih =>
    intro e b he
    by_cases he0 : e = 0
    · subst he0; simp [powModAux]
    · have hpos : 0 < e := Nat.pos_of_ne_zero he0
      have hdiv : e / 2 ≤ fuel := by
        have h2 : e / 2 < e := Nat.div_lt_self hpos (by norm_num)
        omega
      by_cases hodd : e % 2 = 1
      · have hexp : b ^ e = (b * b) ^ (e / 2) * b := by
          conv_lhs => rw [← Nat.div_add_mod e 2, hodd]
          rw [pow_succ, pow_mul, pow_two]
        simp only [powModAux, if_neg he0, if_pos hodd]
        rw [ih (e / 2) (b * b % n) hdiv, hexp, Nat.mul_mod ((b * b) ^ (e / 2)) b n]
        conv_rhs => rw [Nat.pow_mod]
      · have heven : e % 2 = 0 := by omega
        have hexp : b ^ e = (b * b) ^ (e / 2) := by
          conv_lhs => rw [← Nat.div_add_mod e 2, heven]
          rw [Nat.add_zero, pow_mul, pow_two]
        simp only [powModAux, if_neg he0, if_neg hodd]
        rw [ih (e / 2) (b * b % n) hdiv, hexp]
        conv_rhs => rw [Nat.pow_mod]

theorem powMod_correct (n b e : Nat) : powMod n b e = b ^ e % n := by
  unfold powMod
  exact powModAux_correct n e e b (Nat.le_refl e)

theorem translateChar_id {c : Char} (hc : c ∉ invalid_chars) : translateChar c = c := by
  have hnone : translation_table.find? (fun p => p.1 == c) = none := by
    rw [List.find?_eq_none]
    rintro ⟨a, b⟩ hx
    have hmem : a ∈ invalid_chars := (List.of_mem_zip hx).1
    simp only [beq_iff_eq]
    intro hxc
    exact hc (hxc ▸ hmem)
  unfold translateChar
  rw [hnone]

theorem translateChar_mem_fullwidth : ∀ c ∈ invalid_chars, translateChar c ∈ fullwidth_chars := by
  decide

theorem translateChar_inj_table :
    ∀ c ∈ invalid_chars, ∀ d ∈ invalid_chars, translateChar c = translateChar d → c = d := by
  decide

theorem translateChar_inj_outside {c d : Char} (hc : c ∉ fullwidth_chars)
    (hd : d ∉ fullwidth_chars) (h : translateChar c = translateChar d) : c = d := by
  by_cases hci : c ∈ invalid_chars <;> by_cases hdi : d ∈ invalid_chars
  · exact translateChar_inj_table c hci d hdi h
  · exfalso
    have hmem := translateChar_mem_fullwidth c hci
    rw [h, translateChar_id hdi] at hmem
    exact hd hmem
  · exfalso
    have hmem := translateChar_mem_fullwidth d hdi
    rw [← h, translateChar_id hci] at hmem
    exact hc hmem
  · rw [translateChar_id hci, translateChar_id hdi] at h
    exact h

theorem map_translate_inj : ∀ l1 l2 : List Char, (∀ c ∈ l1, c ∉ fullwidth_chars) →
    (∀ c ∈ l2, c ∉ fullwidth_chars) →
    l1.map translateChar = l2.map translateChar → l1 = l2 := by
  intro l1
  induction l1 with
  | nil =>
    intro l2 _ _ h
    cases l2 with
    | nil => rfl
    | cons d l2 => simp at h
  | cons c l ih =>
    intro l2 h1 h2 h
    cases l2 with
    | nil => simp at h
    | cons d l2 =>
      simp only [List.map_cons, List.cons.injEq] at h
      have hc := h1 c (by simp)
      have hd := h2 d (by simp)
      have hcd := translateChar_inj_outside hc hd h.1
      rw [hcd, ih l2 (fun x hx => h1 x (by simp [hx])) (fun x hx => h2 x (by simp [hx])) h.2]

theorem sanitize_title_inj {s t : String} (hs : ∀ c ∈ s.data, c ∉ fullwidth_chars)
    (ht : ∀ c ∈ t.data, c ∉ fullwidth_chars) (h : sanitize_title s = sanitize_title t) :
    s = t := by
  unfold sanitize_title at h
  have hdata : s.data.map translateChar = t.data.map translateChar := by
    have hcongr := congrArg String.data h
    simpa using hcongr
  exact string_ext (map_translate_inj s.data t.data hs ht hdata)

theorem flatMap_escape_id : ∀ l : List Char,
    (∀ c ∈ l, (!(c == '\"') && !(c == '\\') && decide (32 ≤ c.toNat)) = true) →
    l.flatMap json_escape_char = l := by
  intro l
  induction l with
  | nil => intro; rfl
  | cons c l ih =>
    intro h
    have hc := h c (by simp)
    simp only [Bool.and_eq_true, Bool.not_eq_true', beq_eq_false_iff_ne, ne_eq,
      decide_eq_true_eq] at hc
    have hesc : json_escape_char c = [c] := by
      unfold json_escape_char
      rw [if_neg hc.1.1, if_neg hc.1.2, if_neg (by omega)]
    show json_escape_char c ++ l.flatMap json_escape_char = c :: l
    rw [hesc, ih (fun x hx => h x (by simp [hx]))]
    rfl

theorem json_quote_safe {s : String} (hs : jsonSafe s = true) : json_quote s = "\"" ++ s ++ "\"" := by
  unfold json_quote
  rw [flatMap_escape_id s.data (by simpa [jsonSafe, List.all_eq_true] using hs)]

theorem json_str_eq_spec {u pw sc : String} (hu : jsonSafe u = true) (hpw : jsonSafe pw = true)
    (hsc : jsonSafe sc = true) : json_str u pw sc = spec_canonical_json u pw sc := by
  unfold spec_canonical_json
  rw [json_quote_safe hu, json_quote_safe hpw, json_quote_safe hsc]
  unfold json_str
  apply string_ext
  simp only [String.data_append, List.append_assoc, List.cons_append, List.nil_append]

theorem subJobEvents_err (j : SubJob) :
    (subJobEvents j).filterMap evErr =
      (match j.outcome with | .ok _ => [] | .error e => [e]) := by
  unfold subJobEvents
  rw [List.filterMap_append]
  have h1 : (j.progressTrace.map (fun q => Ev.progressEv q.1 q.2)).filterMap evErr = [] := by
    induction j.progressTrace with
    | nil => rfl
    | cons q l ih => simp only [List.map_cons, List.filterMap_cons]; simp [evErr, ih]
  rw [h1]
  cases j.outcome with
  | ok p => simp [evErr, List.filterMap_cons]
  | error e => simp [evErr, List.filterMap_cons]

theorem subJob_err_nil_iff (j : SubJob) :
    (subJobEvents j).filterMap evErr = [] ↔ j.outcome.isOk = true := by
  rw [subJobEvents_err]
  cases j.outcome <;> simp [Except.isOk, Except.toBool]

theorem mem_err_filterMap (j : SubJob) (x : String)
    (hx : x ∈ (subJobEvents j).filterMap evErr) : j.outcome = .error x := by
  rw [subJobEvents_err] at hx
  cases hout : j.outcome with
  | ok p => rw [hout] at hx; simp at hx
  | error e =>
    rw [hout] at hx
    simp at hx
    rw [hx]

theorem run_login_shape (t : DownloadTask)
    (extraction : Except String (Option String × Option String))
    (spawnExc : Option String) (zs : List Ev) :
    ∃ x, (_run_login_download t extraction spawnExc zs).2 = ["running", x] ∧
      (_run_login_download t extraction spawnExc zs).1.status = x ∧
      (x = "finished" ∨ x = "failed") := by
  unfold _run_login_download
  rcases extraction with e | ⟨vt, mu⟩
  · exact ⟨"failed", rfl, rfl, Or.inr rfl⟩
  · dsimp only
    split
    · exact ⟨"failed", rfl, rfl, Or.inr rfl⟩
    · cases spawnExc with
      | some e => exact ⟨"failed", rfl, rfl, Or.inr rfl⟩
      | none =>
        by_cases herr : pyTruthy (applyEvs { t with status := "running" } zs).error = true
        · refine ⟨"failed", ?_, ?_, Or.inr rfl⟩ <;> simp [herr]
        · refine ⟨"finished", ?_, ?_, Or.inl rfl⟩ <;> simp [herr]

theorem run_html_shape (t : DownloadTask) (extraction : Option String × Option String)
    (spawnExc : Option String) (zs : List Ev) :
    ∃ x, (_run_html_download t extraction spawnExc zs).2 = ["running", x] ∧
      (_run_html_download t extraction spawnExc zs).1.status = x ∧
      (x = "finished" ∨ x = "failed") := by
  unfold _run_html_download
  obtain ⟨mu, vt⟩ := extraction
  dsimp only
  split
  · exact ⟨"failed", rfl, rfl, Or.inr rfl⟩
  · cases spawnExc with
    | some e => exact ⟨"failed", rfl, rfl, Or.inr rfl⟩
    | none =>
      by_cases herr : pyTruthy (applyEvs { t with status := "running" } zs).error = true
      · refine ⟨"failed", ?_, ?_, Or.inr rfl⟩ <;> simp [herr]
      · refine ⟨"finished", ?_, ?_, Or.inl rfl⟩ <;> simp [herr]

theorem run_login_success_state (t : DownloadTask) (vt mu : String) (zs : List Ev)
    (hvt : pyTruthy (some vt) = true) (hmu : pyTruthy (some mu) = true) :
    (_run_login_download t (.ok (some vt, some mu)) none zs).1 =
      { applyEvs { t with status := "running" } zs with
        status := if pyTruthy (applyEvs { t with status := "running" } zs).error
                  then "failed" else "finished" } := by
  unfold _run_login_download
  simp [hvt, hmu]

theorem extract_step1_fail (u p : String) (env : HttpEnv)
    (h1 : pyTruthy (get_value_from_input env.resp1 "S1") = false) :
    extract_from_login u p env = (.ok (none, none), [.coursemosLogin1]) := by
  simp [extract_from_login, h1]

theorem extract_step2_fail (u p : String) (env : HttpEnv)
    (h1 : pyTruthy (get_value_from_input env.resp1 "S1") = true)
    (h2 : get_multiple_values env.resp2 ["ssoChallenge", "keyModulus"] = none) :
    extract_from_login u p env = (.ok (none, none), [.coursemosLogin1, .pmSSOService]) := by
  simp [extract_from_login, h1, h2]

theorem extract_step3_fail (u p : String) (env : HttpEnv) (sc km : String)
    (h1 : pyTruthy (get_value_from_input env.resp1 "S1") = true)
    (h2 : get_multiple_values env.resp2 ["ssoChallenge", "keyModulus"] = some [sc, km])
    (hcc : (credential_cipher env.ps u p sc km).isOk = true)
    (h3 : pyTruthy (get_value_from_input env.resp3 "S1") = false) :
    extract_from_login u p env =
      (.ok (none, none), [.coursemosLogin1, .pmSSOService, .coursemosLogin2]) := by
  cases hcase : credential_cipher env.ps u p sc km with
  | error e =>
    rw [hcase] at hcc
    simp [Except.isOk, Except.toBool] at hcc
  | ok e2 => simp [extract_from_login, h1, h2, hcase, h3]

theorem extract_step4_fail (u p : String) (env : HttpEnv) (sc km : String)
    (h1 : pyTruthy (get_value_from_input env.resp1 "S1") = true)
    (h2 : get_multiple_values env.resp2 ["ssoChallenge", "keyModulus"] = some [sc, km])
    (hcc : (credential_cipher env.ps u p sc km).isOk = true)
    (h3 : pyTruthy (get_value_from_input env.resp3 "S1") = true)
    (h4 : get_multiple_values env.resp4 ["E3", "E4", "S2", "CLTID"] = none) :
    extract_from_login u p env =
      (.ok (none, none),
       [.coursemosLogin1, .pmSSOService, .coursemosLogin2, .pmSSOAuthService]) := by
  cases hcase : credential_cipher env.ps u p sc km with
  | error e =>
    rw [hcase] at hcc
    simp [Except.isOk, Except.toBool] at hcc
  | ok e2 => simp [extract_from_login, h1, h2, hcase, h3, h4]

theorem extract_no_source (u p : String) (env : HttpEnv) (sc km e3 e4 s2 cltid : String)
    (h1 : pyTruthy (get_value_from_input env.resp1 "S1") = true)
    (h2 : get_multiple_values env.resp2 ["ssoChallenge", "keyModulus"] = some [sc, km])
    (hcc : (credential_cipher env.ps u p sc km).isOk = true)
    (h3 : pyTruthy (get_value_from_input env.resp3 "S1") = true)
    (h4 : get_multiple_values env.resp4 ["E3", "E4", "S2", "CLTID"] = some [e3, e4, s2, cltid])
    (hsrc : env.page.sourceSrc = none) :
    extract_from_login u p env = (.ok (none, none), allReqs) := by
  cases hcase : credential_cipher env.ps u p sc km with
  | error e =>
    rw [hcase] at hcc
    simp [Except.isOk, Except.toBool] at hcc
  | ok e2 => simp [extract_from_login, h1, h2, hcase, h3, h4, hsrc, allReqs]

theorem extract_no_header (u p : String) (env : HttpEnv) (sc km e3 e4 s2 cltid src : String)
    (h1 : pyTruthy (get_value_from_input env.resp1 "S1") = true)
    (h2 : get_multiple_values env.resp2 ["ssoChallenge", "keyModulus"] = some [sc, km])
    (hcc : (credential_cipher env.ps u p sc km).isOk = true)
    (h3 : pyTruthy (get_value_from_input env.resp3 "S1") = true)
    (h4 : get_multiple_values env.resp4 ["E3", "E4", "S2", "CLTID"] = some [e3, e4, s2, cltid])
    (hsrc : env.page.sourceSrc = some src)
    (hhdr : env.page.vodHeader = none) :
    extract_from_login u p env =
      (.error "AttributeError: NoneType object has no attribute find", allReqs) := by
  cases hcase : credential_cipher env.ps u p sc km with
  | error e =>
    rw [hcase] at hcc
    simp [Except.isOk, Except.toBool] at hcc
  | ok e2 => simp [extract_from_login, h1, h2, hcase, h3, h4, hsrc, hhdr, allReqs]

theorem extract_no_h1 (u p : String) (env : HttpEnv) (sc km e3 e4 s2 cltid src : String)
    (h1 : pyTruthy (get_value_from_input env.resp1 "S1") = true)
    (h2 : get_multiple_values env.resp2 ["ssoChallenge", "keyModulus"] = some [sc, km])
    (hcc : (credential_cipher env.ps u p sc km).isOk = true)
    (h3 : pyTruthy (get_value_from_input env.resp3 "S1") = true)
    (h4 : get_multiple_values env.resp4 ["E3", "E4", "S2", "CLTID"] = some [e3, e4, s2, cltid])
    (hsrc : env.page.sourceSrc = some src)
    (hhdr : env.page.vodHeader = some ⟨none⟩) :
    extract_from_login u p env =
      (.error "AttributeError: NoneType object has no attribute find_all", allReqs) := by
  cases hcase : credential_cipher env.ps u p sc km with
  | error e =>
    rw [hcase] at hcc
    simp [Except.isOk, Except.toBool] at hcc
  | ok e2 => simp [extract_from_login, h1, h2, hcase, h3, h4, hsrc, hhdr, allReqs]

theorem extract_title_ok (u p : String) (env : HttpEnv) (sc km e3 e4 s2 cltid src : String)
    (ns : List TitleNode)
    (h1 : pyTruthy (get_value_from_input env.resp1 "S1") = true)
    (h2 : get_multiple_values env.resp2 ["ssoChallenge", "keyModulus"] = some [sc, km])
    (hcc : (credential_cipher env.ps u p sc km).isOk = true)
    (h3 : pyTruthy (get_value_from_input env.resp3 "S1") = true)
    (h4 : get_multiple_values env.resp4 ["E3", "E4", "S2", "CLTID"] = some [e3, e4, s2, cltid])
    (hsrc : env.page.sourceSrc = some src)
    (hhdr : env.page.vodHeader = some ⟨some ns⟩) :
    extract_from_login u p env =
      (.ok (some (sanitize_title (get_text_strip (decompose_spans ns))), some src), allReqs) := by
  cases hcase : credential_cipher env.ps u p sc km with
  | error e =>
    rw [hcase] at hcc
    simp [Except.isOk, Except.toBool] at hcc
  | ok e2 => simp [extract_from_login, h1, h2, hcase, h3, h4, hsrc, hhdr, allReqs]

/-! # Claim theorems -/

/-- C3 (amended): sanitization translates titles character for
character through the fixed nine-entry table — each of the nine
filesystem-invalid characters is replaced by its full-width equivalent,
every other character is left unchanged, the length is preserved, and
`"A/B: C"` maps to `"A／B： C"`.  The translation is injective on
titles that do not already contain one of the nine full-width
replacement characters (as the counterexample shows, it is not
injective on all strings, which is the amendment to the claim). -/
theorem C3_sanitize_table :
    (∀ pr ∈ translation_table, translateChar pr.1 = pr.2) ∧
    (∀ c : Char, c ∉ invalid_chars → translateChar c = c) ∧
    (∀ s : String, (sanitize_title s).length = s.length) ∧
    (∀ (s : String) (i : Nat) (hi : i < s.data.length)
        (hi2 : i < (sanitize_title s).data.length),
      (sanitize_title s).data.get ⟨i, hi2⟩ = translateChar (s.data.get ⟨i, hi⟩)) ∧
    sanitize_title "A/B: C" = "A／B： C" ∧
    (∀ s t : String, (∀ c ∈ s.data, c ∉ fullwidth_chars) →
      (∀ c ∈ t.data, c ∉ fullwidth_chars) → sanitize_title s = sanitize_title t → s = t) := by
  refine ⟨by decide, fun c hc => translateChar_id hc, ?_, ?_, by decide,
    fun s t hs ht h => sanitize_title_inj hs ht h⟩
  · intro s
    show (s.data.map translateChar).length = s.data.length
    exact List.length_map s.data translateChar
  · intro s i hi hi2
    show (s.data.map translateChar).get ⟨i, hi2⟩ = translateChar (s.data.get ⟨i, hi⟩)
    simp [List.get_eq_getElem, List.getElem_map]

/-- C3 witness: the position-wise translation and the conditional
injectivity instantiated at concrete titles. -/
theorem C3_sanitize_table_witness :
    (sanitize_title "A/B").data.get ⟨1, by decide⟩ =
      translateChar ("A/B".data.get ⟨1, by decide⟩) ∧ ("sem" : String) = "sem" :=
  ⟨C3_sanitize_table.2.2.2.1 "A/B" 1 (by decide) (by decide),
   C3_sanitize_table.2.2.2.2.2 "sem" "sem" (by decide) (by decide) (by decide)⟩

/-- C3 counterexample: the claim asserts the mapping is injective so
that distinct titles stay distinct, but the backslash and its own
full-width replacement character are two distinct titles with the same
sanitized form. -/
theorem C3_sanitize_table_cex :
    sanitize_title "\\" = sanitize_title "＼" ∧ ("\\" : String) ≠ "＼" := by decide

/-- C4: a task record starts `pending`, the worker's only status writes
form a chain `pending → running → finished | failed` of allowed
transitions (for both workers, every extraction outcome, every spawn
exception and every sub-job interleaving), no transition leaves a
terminal state, and no sub-job event ever writes the status field. -/
theorem C4_status_monotonic :
    ∀ (t t0 : DownloadTask) (id : String) (ev : Ev)
      (extraction : Except String (Option String × Option String))
      (extraction2 : Option String × Option String) (spawnExc : Option String) (zs : List Ev),
      (initTask id).status = "pending" ∧
      List.Chain allowed_transition "pending" (_run_login_download t extraction spawnExc zs).2 ∧
      List.Chain allowed_transition "pending" (_run_html_download t extraction2 spawnExc zs).2 ∧
      (applyEv t0 ev).status = t0.status ∧
      (∀ b : String, ¬ allowed_transition "finished" b ∧ ¬ allowed_transition "failed" b) := by
  intro t t0 id ev extraction extraction2 spawnExc zs
  have hchain : ∀ x : String, x = "finished" ∨ x = "failed" →
      List.Chain allowed_transition "pending" ["running", x] := by
    intro x hx
    exact List.Chain.cons (Or.inl ⟨rfl, rfl⟩)
      (List.Chain.cons (Or.inr ⟨rfl, hx⟩) List.Chain.nil)
  refine ⟨rfl, ?_, ?_, applyEv_status t0 ev, ?_⟩
  · obtain ⟨x, htr, _, hx⟩ := run_login_shape t extraction spawnExc zs
    rw [htr]
    exact hchain x hx
  · obtain ⟨x, htr, _, hx⟩ := run_html_shape t extraction2 spawnExc zs
    rw [htr]
    exact hchain x hx
  · intro b
    constructor
    · rintro (⟨h1, _⟩ | ⟨h1, _⟩) <;> simp at h1
    · rintro (⟨h1, _⟩ | ⟨h1, _⟩) <;> simp at h1

/-- C4 witness: the status-write chain of a concrete worker run that
fails during extraction. -/
theorem C4_status_monotonic_witness :
    List.Chain allowed_transition "pending"
      (_run_login_download (initTask "t4") (.error "net down") none []).2 :=
  (C4_status_monotonic (initTask "t4") (initTask "t4") "t4" (.progressEv "f" 1)
    (.error "net down") (none, none) none []).2.1

/-- C6: submitting with an empty format set (neither mp4 nor mp3) is
rejected synchronously by both routes with the `Missing parameters`
/ 400 response (the spec's `InvalidParameters`), and the registry is
returned unchanged — no task record is created. -/
theorem C6_empty_formats_rejected :
    ∀ (username password url file : Option String) (newId : String) (r : Registry),
      login_download_route username password url false false newId r =
        (.clientError "Missing parameters" 400, r) ∧
      html_download_route file false false newId r =
        (.clientError "Missing parameters" 400, r) := by
  intro username password url file newId r
  constructor
  · unfold login_download_route
    simp
  · unfold html_download_route
    simp

/-- C6 witness: a concrete submission with no formats on a concrete
registry is rejected and leaves the registry unchanged. -/
theorem C6_empty_formats_rejected_witness :
    login_download_route (some "user") (some "pw") (some "https://x") false false "id1"
        ⟨[]⟩ =
      (.clientError "Missing parameters" 400, ⟨[]⟩) :=
  (C6_empty_formats_rejected (some "user") (some "pw") (some "https://x") none "id1" ⟨[]⟩).1

/-- C9 counterexample: the claim asserts every task-record mutation —
including each progress update — holds the registry lock, but the
progress write of `_progress_callback` mutates shared state without
holding `_tasks_lock`. -/
theorem C9_lock_discipline_cex :
    mutatesSharedState CoreOp.progressUpdateOp = true ∧
      holds_tasks_lock CoreOp.progressUpdateOp = false := by decide

theorem run_login_finished_iff (t : DownloadTask) (vt mu : String) (zs : List Ev)
    (hvt : pyTruthy (some vt) = true) (hmu : pyTruthy (some mu) = true)
    (he : t.error = none) :
    (_run_login_download t (.ok (some vt, some mu)) none zs).1.status = "finished" ↔
      pyTruthy (lastOption none (zs.filterMap evErr)) = false := by
  rw [run_login_success_state t vt mu zs hvt hmu]
  show (if pyTruthy (applyEvs { t with status := "running" } zs).error
        then "failed" else "finished") = "finished" ↔ _
  rw [applyEvs_error]
  have ht1 : ({ t with status := "running" } : DownloadTask).error = none := he
  rw [ht1]
  cases hp : pyTruthy (lastOption none (zs.filterMap evErr)) with
  | true => simp
  | false => simp

/-- C2 (amended): for a task with both formats requested, where the mp4
sub-job succeeds with some output path and the mp3 sub-job fails with a
non-empty message, after both sub-jobs have terminated (the whole
interleaving of their event lists is applied before the final status is
computed) the final record has status `failed`, files containing
exactly the mp4 output path, and error equal to the mp3 sub-job's
message — in every interleaving of the two sub-jobs' events; and, for
sub-jobs whose failure messages are non-empty, the final status is
`finished` if and only if neither sub-job reported an error.  The
non-emptiness proviso is forced by tasks.py line 95, which tests the
Python truthiness of `task.error`: an error whose `str(e)` is the empty
string leaves the task `finished` (see the counterexample). -/
theorem C2_mixed_format_outcome :
    (∀ (t : DownloadTask) (vt mu mp4Path mp3Msg : String) (j4 j3 : SubJob) (zs : List Ev),
      t.files = [] → t.error = none →
      pyTruthy (some vt) = true → pyTruthy (some mu) = true →
      pyTruthy (some mp3Msg) = true →
      j4.outcome = .ok mp4Path → j3.outcome = .error mp3Msg →
      Interleaving (subJobEvents j4) (subJobEvents j3) zs →
      (_run_login_download t (.ok (some vt, some mu)) none zs).1.status = "failed" ∧
      (_run_login_download t (.ok (some vt, some mu)) none zs).1.files = [mp4Path] ∧
      (_run_login_download t (.ok (some vt, some mu)) none zs).1.error = some mp3Msg) ∧
    (∀ (t : DownloadTask) (vt mu : String) (j1 j2 : SubJob) (zs : List Ev),
      t.error = none →
      pyTruthy (some vt) = true → pyTruthy (some mu) = true →
      (∀ e, j1.outcome = .error e → pyTruthy (some e) = true) →
      (∀ e, j2.outcome = .error e → pyTruthy (some e) = true) →
      Interleaving (subJobEvents j1) (subJobEvents j2) zs →
      ((_run_login_download t (.ok (some vt, some mu)) none zs).1.status = "finished" ↔
        j1.outcome.isOk = true ∧ j2.outcome.isOk = true)) := by
  constructor
  · intro t vt mu mp4Path mp3Msg j4 j3 zs hfiles herrnone hvt hmu hmsg h4 h3 hint
    have hj4e : (subJobEvents j4).filterMap evErr = [] := by
      rw [subJobEvents_err, h4]
    have hj3e : (subJobEvents j3).filterMap evErr = [mp3Msg] := by
      rw [subJobEvents_err, h3]
    have hzse : zs.filterMap evErr = [mp3Msg] := by
      have hh := interleaving_filterMap evErr hint
      rw [hj4e, hj3e] at hh
      exact interleaving_nil_left hh rfl
    have hj4p : (subJobEvents j4).filterMap evPath = [mp4Path] := by
      rw [subJobEvents_path, h4]
    have hj3p : (subJobEvents j3).filterMap evPath = [] := by
      rw [subJobEvents_path, h3]
    have hzsp : zs.filterMap evPath = [mp4Path] := by
      have hh := interleaving_filterMap evPath hint
      rw [hj4p, hj3p] at hh
      exact interleaving_nil_right hh rfl
    have ht1e : ({ t with status := "running" } : DownloadTask).error = none := herrnone
    have herr : (applyEvs { t with status := "running" } zs).error = some mp3Msg := by
      rw [applyEvs_error, ht1e, hzse]
      rfl
    have hfl : (applyEvs { t with status := "running" } zs).files = [mp4Path] := by
      rw [applyEvs_files, hzsp]
      show ({ t with status := "running" } : DownloadTask).files ++ [mp4Path] = [mp4Path]
      have ht1f : ({ t with status := "running" } : DownloadTask).files = [] := hfiles
      rw [ht1f]
      rfl
    rw [run_login_success_state t vt mu zs hvt hmu]
    refine ⟨?_, ?_, ?_⟩
    · show (if pyTruthy (applyEvs { t with status := "running" } zs).error
            then "failed" else "finished") = "failed"
      rw [herr, hmsg]
      simp
    · show (applyEvs { t with status := "running" } zs).files = [mp4Path]
      exact hfl
    · show (applyEvs { t with status := "running" } zs).error = some mp3Msg
      exact herr
  · intro t vt mu j1 j2 zs herrnone hvt hmu hj1 hj2 hint
    rw [run_login_finished_iff t vt mu zs hvt hmu herrnone]
    have hinterleave := interleaving_filterMap evErr hint
    cases hL : zs.filterMap evErr with
    | nil =>
      rw [hL] at hinterleave
      have hnil := (interleaving_nil_iff hinterleave).mp rfl
      constructor
      · intro _
        exact ⟨(subJob_err_nil_iff j1).mp hnil.1, (subJob_err_nil_iff j2).mp hnil.2⟩
      · intro _
        rfl
    | cons m ms =>
      rw [hL] at hinterleave
      obtain ⟨x, hx, hxmem⟩ := lastOption_cons_spec ms m none
      have houtcome : j1.outcome = .error x ∨ j2.outcome = .error x := by
        rcases interleaving_mem hinterleave x hxmem with hmem | hmem
        · exact Or.inl (mem_err_filterMap j1 x hmem)
        · exact Or.inr (mem_err_filterMap j2 x hmem)
      have htruthy : pyTruthy (some x) = true := by
        rcases houtcome with h | h
        · exact hj1 x h
        · exact hj2 x h
      rw [hx, htruthy]
      constructor
      · intro hcontra
        exact absurd hcontra (by simp)
      · rintro ⟨ho1, ho2⟩
        exfalso
        rcases houtcome with h | h
        · rw [h] at ho1
          simp [Except.isOk, Except.toBool] at ho1
        · rw [h] at ho2
          simp [Except.isOk, Except.toBool] at ho2

/-- C2 witness: a concrete task with an mp4 sub-job that succeeds at
path `/dl/v.mp4` and an mp3 sub-job that fails with the non-empty
message `boom`, executed in one concrete interleaving of their
events. -/
theorem C2_mixed_format_outcome_witness :
    (_run_login_download (initTask "t2") (.ok (some "v", some "u")) none
        (subJobEvents ⟨[("v.mp4", 50)], .ok "/dl/v.mp4"⟩ ++
          subJobEvents ⟨[], .error "boom"⟩)).1.status = "failed" ∧
    (_run_login_download (initTask "t2") (.ok (some "v", some "u")) none
        (subJobEvents ⟨[("v.mp4", 50)], .ok "/dl/v.mp4"⟩ ++
          subJobEvents ⟨[], .error "boom"⟩)).1.files = ["/dl/v.mp4"] ∧
    (_run_login_download (initTask "t2") (.ok (some "v", some "u")) none
        (subJobEvents ⟨[("v.mp4", 50)], .ok "/dl/v.mp4"⟩ ++
          subJobEvents ⟨[], .error "boom"⟩)).1.error = some "boom" :=
  C2_mixed_format_outcome.1 (initTask "t2") "v" "u" "/dl/v.mp4" "boom"
    ⟨[("v.mp4", 50)], .ok "/dl/v.mp4"⟩ ⟨[], .error "boom"⟩ _
    rfl rfl (by decide) (by decide) (by decide) rfl rfl
    (Interleaving.left (Interleaving.left (Interleaving.right Interleaving.nil)))

/-- C2 counterexample: with the mp4 sub-job succeeding and the mp3
sub-job failing with the empty message (Python `str(e)` of a bare
exception is empty), the program ends with status `finished` — not
`failed` as the claim states — because tasks.py line 95 tests the
truthiness of the error string; so the final status is not `finished`
only if no sub-job reported an error. -/
theorem C2_mixed_format_outcome_cex :
    (_run_login_download (initTask "t2c") (.ok (some "v", some "u")) none
        (subJobEvents ⟨[], .ok "/dl/v.mp4"⟩ ++ subJobEvents ⟨[], .error ""⟩)).1.status =
      "finished" ∧
    (_run_login_download (initTask "t2c") (.ok (some "v", some "u")) none
        (subJobEvents ⟨[], .ok "/dl/v.mp4"⟩ ++ subJobEvents ⟨[], .error ""⟩)).1.error =
      some "" ∧
    (⟨[], .error ""⟩ : SubJob).outcome.isOk = false ∧
    Interleaving (subJobEvents ⟨[], .ok "/dl/v.mp4"⟩) (subJobEvents ⟨[], .error ""⟩)
      (subJobEvents ⟨[], .ok "/dl/v.mp4"⟩ ++ subJobEvents ⟨[], .error ""⟩) :=
  ⟨by decide, by decide, by decide,
   Interleaving.left (Interleaving.right Interleaving.nil)⟩

/-- C7: any exception raised during resolution is caught at the worker
boundary and recorded as status `failed` with the exception's message;
the same holds for an exception raised while spawning or supervising
sub-jobs; the worker always leaves the record in a terminal state (the
model of the worker is a total function: it never propagates); and the
progress poller always receives either `NotFound` or the well-formed
`to_dict` rendering of the stored record. -/
theorem C7_worker_boundary :
    (∀ (t : DownloadTask) (e : String) (spawnExc : Option String) (zs : List Ev),
      (_run_login_download t (.error e) spawnExc zs).1.status = "failed" ∧
      (_run_login_download t (.error e) spawnExc zs).1.error = some e) ∧
    (∀ (t : DownloadTask) (vt mu : Option String) (e : String) (zs : List Ev),
      pyTruthy vt = true → pyTruthy mu = true →
      (_run_login_download t (.ok (vt, mu)) (some e) zs).1.status = "failed" ∧
      (_run_login_download t (.ok (vt, mu)) (some e) zs).1.error = some e) ∧
    (∀ (t : DownloadTask) (extraction : Except String (Option String × Option String))
        (spawnExc : Option String) (zs : List Ev),
      (_run_login_download t extraction spawnExc zs).1.status = "finished" ∨
      (_run_login_download t extraction spawnExc zs).1.status = "failed") ∧
    (∀ (r : Registry) (taskId : String),
      (get_task r taskId = none ∧ progress_route r taskId = .notFound "Invalid task id") ∨
      (∃ t, get_task r taskId = some t ∧ progress_route r taskId = .okDict (to_dict t))) := by
  refine ⟨?_, ?_, ?_, ?_⟩
  · intro t e spawnExc zs
    exact ⟨rfl, rfl⟩
  · intro t vt mu e zs hvt hmu
    constructor <;> simp [_run_login_download, hvt, hmu]
  · intro t extraction spawnExc zs
    obtain ⟨x, _, hst, hx⟩ := run_login_shape t extraction spawnExc zs
    rcases hx with hx | hx
    · exact Or.inl (hst.trans hx)
    · exact Or.inr (hst.trans hx)
  · intro r taskId
    cases hgt : get_task r taskId with
    | none =>
      refine Or.inl ⟨rfl, ?_⟩
      unfold progress_route
      rw [hgt]
    | some t =>
      refine Or.inr ⟨t, rfl, ?_⟩
      unfold progress_route
      rw [hgt]

/-- C7 witness: a spawn-phase exception `boom` on a concrete task is
recorded as status `failed` with error `boom`. -/
theorem C7_worker_boundary_witness :
    (_run_login_download (initTask "w7") (.ok (some "t", some "u")) (some "boom") []).1.status =
      "failed" ∧
    (_run_login_download (initTask "w7") (.ok (some "t", some "u")) (some "boom") []).1.error =
      some "boom" :=
  C7_worker_boundary.2.1 (initTask "w7") (some "t") (some "u") "boom" [] (by decide) (by decide)

/-- C9 (amended): only the registry insertion (`_register_task`) and
the lookup (`get_task`) execute under `_tasks_lock`; every field
mutation a sub-job worker performs on the task record — progress
updates, file appends and error writes — runs outside the lock. -/
theorem C9_lock_discipline :
    (∀ op : CoreOp, holds_tasks_lock op = true ↔
      op = CoreOp.registerTaskOp ∨ op = CoreOp.getTaskOp) ∧
    (∀ ev : Ev, holds_tasks_lock (evOp ev) = false) := by
  constructor
  · intro op
    cases op <;> simp [holds_tasks_lock]
  · intro ev
    cases ev <;> rfl

/-- C9 witness: the lock characterization instantiated at the progress
update performed by a concrete sub-job event. -/
theorem C9_lock_discipline_witness :
    holds_tasks_lock (evOp (.progressEv "v.mp4" 10)) = false :=
  C9_lock_discipline.2 (.progressEv "v.mp4" 10)

/-- C1 (amended): when a handshake step response misses its required
hidden field(s), `extract_from_login` returns the sentinel
`(None, None)` without issuing the requests of any later step and
without raising; when every step response carries its required fields,
the Credential Cipher accepts the issued modulus, and additionally the
fetched video page carries the HLS source element and a title heading,
it issues all requests and returns the `(title, manifestUrl)` pair.
(The claim's success half also quantified over video pages without the
source element or title container — there the function returns the
sentinel, respectively raises, as the counterexample shows.) -/
theorem C1_five_step_handshake :
    ∀ (u p : String) (env : HttpEnv),
      (pyTruthy (get_value_from_input env.resp1 "S1") = false →
        extract_from_login u p env = (.ok (none, none), [.coursemosLogin1])) ∧
      (pyTruthy (get_value_from_input env.resp1 "S1") = true →
        get_multiple_values env.resp2 ["ssoChallenge", "keyModulus"] = none →
        extract_from_login u p env =
          (.ok (none, none), [.coursemosLogin1, .pmSSOService])) ∧
      (∀ sc km : String,
        pyTruthy (get_value_from_input env.resp1 "S1") = true →
        get_multiple_values env.resp2 ["ssoChallenge", "keyModulus"] = some [sc, km] →
        (credential_cipher env.ps u p sc km).isOk = true →
        pyTruthy (get_value_from_input env.resp3 "S1") = false →
        extract_from_login u p env =
          (.ok (none, none), [.coursemosLogin1, .pmSSOService, .coursemosLogin2])) ∧
      (∀ sc km : String,
        pyTruthy (get_value_from_input env.resp1 "S1") = true →
        get_multiple_values env.resp2 ["ssoChallenge", "keyModulus"] = some [sc, km] →
        (credential_cipher env.ps u p sc km).isOk = true →
        pyTruthy (get_value_from_input env.resp3 "S1") = true →
        get_multiple_values env.resp4 ["E3", "E4", "S2", "CLTID"] = none →
        extract_from_login u p env =
          (.ok (none, none),
           [.coursemosLogin1, .pmSSOService, .coursemosLogin2, .pmSSOAuthService])) ∧
      (∀ (sc km e3 e4 s2 cltid src : String) (ns : List TitleNode),
        pyTruthy (get_value_from_input env.resp1 "S1") = true →
        get_multiple_values env.resp2 ["ssoChallenge", "keyModulus"] = some [sc, km] →
        (credential_cipher env.ps u p sc km).isOk = true →
        pyTruthy (get_value_from_input env.resp3 "S1") = true →
        get_multiple_values env.resp4 ["E3", "E4", "S2", "CLTID"] = some [e3, e4, s2, cltid] →
        env.page.sourceSrc = some src →
        env.page.vodHeader = some ⟨some ns⟩ →
        extract_from_login u p env =
          (.ok (some (sanitize_title (get_text_strip (decompose_spans ns))), some src),
           allReqs)) := by
  intro u p env
  exact ⟨extract_step1_fail u p env,
    extract_step2_fail u p env,
    fun sc km h1 h2 hcc h3 => extract_step3_fail u p env sc km h1 h2 hcc h3,
    fun sc km h1 h2 hcc h3 h4 => extract_step4_fail u p env sc km h1 h2 hcc h3 h4,
    fun sc km e3 e4 s2 cltid src ns h1 h2 hcc h3 h4 hsrc hhdr =>
      extract_title_ok u p env sc km e3 e4 s2 cltid src ns h1 h2 hcc h3 h4 hsrc hhdr⟩

/-- C1 witness: a full run over a concrete mocked exchange — every step
response carries its fields, the page carries the source element and a
badge-polluted title — returns the sanitized title and the manifest
URL after issuing all seven requests. -/
theorem C1_five_step_handshake_witness :
    extract_from_login "u" "p" (goodStepsEnv pageWithTitle) =
      (.ok (some (sanitize_title (get_text_strip (decompose_spans
          [.spanNode "[VOD]", .textNode " A/B: C "]))), some "https://cdn/x.m3u8"),
       allReqs) :=
  (C1_five_step_handshake "u" "p" (goodStepsEnv pageWithTitle)).2.2.2.2 "ch" kmBig
    "a" "b" "c" "d" "https://cdn/x.m3u8" [.spanNode "[VOD]", .textNode " A/B: C "]
    (by decide) (by decide) (by decide) (by decide) (by decide) (by decide) (by decide)

/-- C1 counterexample: every one of the step responses carries its
required hidden fields, yet `extract_from_login` does not return a
(title, manifestUrl) pair — it returns the sentinel `(None, None)`,
because the fetched video page lacks the HLS source element. -/
theorem C1_five_step_handshake_cex :
    pyTruthy (get_value_from_input c1CexEnv.resp1 "S1") = true ∧
    get_multiple_values c1CexEnv.resp2 ["ssoChallenge", "keyModulus"] = some ["ch", kmBig] ∧
    pyTruthy (get_value_from_input c1CexEnv.resp3 "S1") = true ∧
    get_multiple_values c1CexEnv.resp4 ["E3", "E4", "S2", "CLTID"] = some ["a", "b", "c", "d"] ∧
    (extract_from_login "u" "p" c1CexEnv).1 = .ok (none, none) := by
  decide

/-- C5 (amended): the credential cipher builds the key from the
hex-decoded modulus and exponent `0x10001`, PKCS#1-v1.5-pads the
payload, encrypts with modular exponentiation and hex-encodes the
result; its plaintext equals the canonical JSON serialization of the
three-field object provided the identifier, passphrase and challenge
contain no character that JSON serialization must escape (the payload
is built by naive string interpolation, so for other inputs it differs
from the canonical serialization — see the counterexample). -/
theorem C5_credential_cipher :
    ∀ (ps : Nat → Nat) (u pw sc km : String) (n : Nat),
      hexToNat km = some n →
      jsonSafe u = true → jsonSafe pw = true → jsonSafe sc = true →
      (strBytes (json_str u pw sc)).length ≤ byteLength n - 11 →
      json_str u pw sc = spec_canonical_json u pw sc ∧
      credential_cipher ps u pw sc km =
        .ok (bytesToHex (i2osp (byteLength n)
          (os2ip (pkcs1_v15_pad (byteLength n) ps
            (strBytes (spec_canonical_json u pw sc))) ^ 65537 % n))) := by
  intro ps u pw sc km n hkm hu hpw hsc hlen
  have hjson := json_str_eq_spec hu hpw hsc
  refine ⟨hjson, ?_⟩
  unfold credential_cipher rsa_encrypt_hex
  simp only [hkm]
  rw [if_neg (by omega : ¬ (strBytes (json_str u pw sc)).length > byteLength n - 11)]
  rw [powMod_correct, hjson]

/-- C5 witness: the cipher applied to concrete credentials and a
concrete 512-bit all-ones modulus. -/
theorem C5_credential_cipher_witness :
    json_str "user" "pw" "ch" = spec_canonical_json "user" "pw" "ch" ∧
    credential_cipher (fun _ => 1) "user" "pw" "ch" kmBig =
      .ok (bytesToHex (i2osp (byteLength (16 ^ 128 - 1))
        (os2ip (pkcs1_v15_pad (byteLength (16 ^ 128 - 1)) (fun _ => 1)
          (strBytes (spec_canonical_json "user" "pw" "ch"))) ^ 65537 % (16 ^ 128 - 1)))) :=
  C5_credential_cipher (fun _ => 1) "user" "pw" "ch" kmBig (16 ^ 128 - 1)
    (by decide) (by decide) (by decide) (by decide) (by decide)

/-- C5 counterexample: for an identifier containing a double quote the
encrypted plaintext is not a well-formed JSON serialization of the
three fields — the naive interpolation differs from the canonical
serialization. -/
theorem C5_credential_cipher_cex :
    json_str "a\"b" "p" "c" ≠ spec_canonical_json "a\"b" "p" "c" ∧
    json_str "a\"b" "p" "c" =
      "\x7b\"userid\":\"a\"b\",\"userpw\":\"p\",\"ssoChallenge\":\"c\"\x7d" := by
  decide

/-- C8 (amended): for raw-HTML extraction a missing title container or
missing heading does not fail — the fixed default name
`LearnUs_Video` (a hardcoded constant, not a caller-supplied one) is
used while the manifest URL is still returned when the source element
is present; the authenticated-fetch path, by contrast, does not fall
back: with the source element present and the title container absent
it raises an `AttributeError` (which the worker boundary later
catches). -/
theorem C8_title_fallback :
    (∀ (doc : Html) (src : String), doc.sourceSrc = some src → doc.vodHeader = none →
      extract_from_html doc = (some src, some "LearnUs_Video")) ∧
    (∀ (doc : Html) (src : String), doc.sourceSrc = some src →
      doc.vodHeader = some ⟨none⟩ →
      extract_from_html doc = (some src, some "LearnUs_Video")) ∧
    (∀ (u p : String) (env : HttpEnv) (sc km e3 e4 s2 cltid src : String),
      pyTruthy (get_value_from_input env.resp1 "S1") = true →
      get_multiple_values env.resp2 ["ssoChallenge", "keyModulus"] = some [sc, km] →
      (credential_cipher env.ps u p sc km).isOk = true →
      pyTruthy (get_value_from_input env.resp3 "S1") = true →
      get_multiple_values env.resp4 ["E3", "E4", "S2", "CLTID"] = some [e3, e4, s2, cltid] →
      env.page.sourceSrc = some src →
      env.page.vodHeader = none →
      (extract_from_login u p env).1 =
        .error "AttributeError: NoneType object has no attribute find") := by
  refine ⟨?_, ?_, ?_⟩
  · intro doc src hsrc hhdr
    simp [extract_from_html, hsrc, hhdr]
  · intro doc src hsrc hhdr
    simp [extract_from_html, hsrc, hhdr]
  · intro u p env sc km e3 e4 s2 cltid src h1 h2 hcc h3 h4 hsrc hhdr
    rw [extract_no_header u p env sc km e3 e4 s2 cltid src h1 h2 hcc h3 h4 hsrc hhdr]

/-- C8 witness: a concrete page with a source element and no title
container — the raw-HTML path falls back to `LearnUs_Video` while the
authenticated path raises. -/
theorem C8_title_fallback_witness :
    extract_from_html c8Page = (some "https://cdn/y.m3u8", some "LearnUs_Video") ∧
    (extract_from_login "u" "p" (goodStepsEnv c8Page)).1 =
      .error "AttributeError: NoneType object has no attribute find" :=
  ⟨C8_title_fallback.1 c8Page "https://cdn/y.m3u8" (by decide) (by decide),
   C8_title_fallback.2.2 "u" "p" (goodStepsEnv c8Page) "ch" kmBig "a" "b" "c" "d"
     "https://cdn/y.m3u8" (by decide) (by decide) (by decide) (by decide) (by decide)
     (by decide) (by decide)⟩

/-- C8 counterexample: on an authenticated fetch whose page has the HLS
source element but no title container, the extraction does fail — it
raises an `AttributeError` instead of falling back to a default name
and returning the manifest URL. -/
theorem C8_title_fallback_cex :
    (goodStepsEnv c8Page).page.sourceSrc = some "https://cdn/y.m3u8" ∧
    (goodStepsEnv c8Page).page.vodHeader = none ∧
    (extract_from_login "u" "p" (goodStepsEnv c8Page)).1 =
      .error "AttributeError: NoneType object has no attribute find" := by
  decide

/-- C10: the two extraction entry points return their result pair in
opposite orders — on corresponding successful inputs
`extract_from_login` returns `(title, manifestUrl)` while
`extract_from_html` returns `(manifestUrl, title)`. -/
theorem C10_tuple_order_swap :
    ∀ (u p : String) (env : HttpEnv) (sc km e3 e4 s2 cltid src : String)
      (ns : List TitleNode),
      pyTruthy (get_value_from_input env.resp1 "S1") = true →
      get_multiple_values env.resp2 ["ssoChallenge", "keyModulus"] = some [sc, km] →
      (credential_cipher env.ps u p sc km).isOk = true →
      pyTruthy (get_value_from_input env.resp3 "S1") = true →
      get_multiple_values env.resp4 ["E3", "E4", "S2", "CLTID"] = some [e3, e4, s2, cltid] →
      env.page.sourceSrc = some src →
      env.page.vodHeader = some ⟨some ns⟩ →
      (extract_from_login u p env).1 =
        .ok (some (sanitize_title (get_text_strip (decompose_spans ns))), some src) ∧
      extract_from_html env.page =
        (some src, some (sanitize_title (get_text_strip (decompose_spans ns)))) := by
  intro u p env sc km e3 e4 s2 cltid src ns h1 h2 hcc h3 h4 hsrc hhdr
  constructor
  · rw [extract_title_ok u p env sc km e3 e4 s2 cltid src ns h1 h2 hcc h3 h4 hsrc hhdr]
  · simp [extract_from_html, hsrc, hhdr]

/-- C10 witness: the order swap on a concrete exchange and page. -/
theorem C10_tuple_order_swap_witness :
    (extract_from_login "u" "p" (goodStepsEnv pageWithTitle)).1 =
      .ok (some (sanitize_title (get_text_strip (decompose_spans
        [.spanNode "[VOD]", .textNode " A/B: C "]))), some "https://cdn/x.m3u8") ∧
    extract_from_html (goodStepsEnv pageWithTitle).page =
      (some "https://cdn/x.m3u8", some (sanitize_title (get_text_strip (decompose_spans
        [.spanNode "[VOD]", .textNode " A/B: C "])))) :=
  C10_tuple_order_swap "u" "p" (goodStepsEnv pageWithTitle) "ch" kmBig "a" "b" "c" "d"
    "https://cdn/x.m3u8" [.spanNode "[VOD]", .textNode " A/B: C "]
    (by decide) (by decide) (by decide) (by decide) (by decide) (by decide) (by decide)

end LearnUs
